import Mathlib

/-!
# Verification of the Rei do Churrasco WhatsApp bot core

Shallow embedding of the bot's core components, translated from the
JavaScript sources:

* `src/index.js` — order-ingestion poller (`verificarNovosPedidos`,
  `configurarPollingPedidos`), store gate (`verificarStatusLoja`),
  notification dispatch (`processarNovoPedido`,
  `processarAtualizacaoStatus`, `enviarMensagem`,
  `formatarNumeroWhatsApp`), and the connection close handler of
  `iniciarConexaoWhatsApp`.
* `src/lib/pix.js` — PIX key rotation (`selecionarChavePixInteligente`).
* `src/lib/respostasAutomaticas.js` — anti-spam gate
  (`podeResponder`, `registrarResposta`, `processarMensagemRecebida`).

Machine integers are modelled as `Nat` (timestamps are epoch
milliseconds); JavaScript `Map`s are modelled as association lists in
insertion order; `Math.random`-driven choices are modelled by an
arbitrary `Nat` seed reduced modulo the candidate-group size; network
sends are modelled by a success oracle `String → Bool` (a `false`
result is a caught error — `enviarMensagem` never throws).
-/

namespace ReiDoChurrasco

/-! ## JavaScript-style helpers -/

/-- JavaScript truthiness for an optional string: `null`/`undefined`
and the empty string are falsy. -/
def truthyStr : Option String → Bool
  | none => false
  | some s => s ≠ ""

/-- JavaScript `a || b` on optional strings, returning `none` when both
are falsy (used for field-alias fallbacks like
`pedido.customer_phone || pedido.telefone`). -/
def jsOuStr (a b : Option String) : Option String :=
  if truthyStr a then a else if truthyStr b then b else none

/-- Lookup in an insertion-ordered association list (JavaScript
`Map.prototype.get`). -/
def buscarMapa {κ β : Type} [DecidableEq κ] : List (κ × β) → κ → Option β
  | [], _ => none
  | (k', v) :: resto, k => if k' = k then some v else buscarMapa resto k

/-- Update-or-append in an insertion-ordered association list
(JavaScript `Map.prototype.set`): an existing key keeps its position. -/
def definirMapa {κ β : Type} [DecidableEq κ] : List (κ × β) → κ → β → List (κ × β)
  | [], k, v => [(k, v)]
  | (k', v') :: resto, k, v =>
      if k' = k then (k', v) :: resto else (k', v') :: definirMapa resto k v

/-! ## Data model: orders and couriers (external inputs, §6 of the spec) -/

/-- An order row of the external `orders` table, restricted to the
fields the core reads (`created_at` is a sortable timestamp, modelled
as epoch milliseconds). -/
structure Pedido where
  id : String
  created_at : Nat
  status : String
  customer_phone : Option String
  telefone : Option String
  order_type : Option String
  tipo_entrega : Option String
deriving DecidableEq, Repr

/-- An active-courier row from the courier directory. -/
structure Entregador where
  nome : String
  telefone : Option String
deriving DecidableEq, Repr

/-! ## Order-ingestion poller (src/index.js, `verificarNovosPedidos`) -/

/-- `MAX_PEDIDOS_CACHE` from src/index.js. -/
def MAX_PEDIDOS_CACHE : Nat := 100

/-- `INTERVALO_POLLING_MS` from src/index.js. -/
def INTERVALO_POLLING_MS : Nat := 10000

/-- Mutable poller state: the `ultimoPedidoProcessado` cursor and the
`pedidosProcessados` dedup set (a JavaScript `Set`, i.e. an
insertion-ordered list of distinct ids). -/
structure EstadoPoller where
  ultimoPedidoProcessado : Nat
  pedidosProcessados : List String
deriving DecidableEq, Repr

/-- Insert an id into `pedidosProcessados` and trim the cache to the
most recent `MAX_PEDIDOS_CACHE` insertions, as in
src/index.js lines 377-384 (`Set.add` is a no-op on a present id;
the trim drops the oldest-inserted entries). -/
def inserirProcessado (procs : List String) (id : String) : List String :=
  let l := if id ∈ procs then procs else procs ++ [id]
  if MAX_PEDIDOS_CACHE < l.length then l.drop (l.length - MAX_PEDIDOS_CACHE) else l

/-- One iteration of the `for (const pedido of novosPedidos)` loop of
`verificarNovosPedidos`: a known id is skipped (only the cursor
advances); a new id is dispatched to `processarNovoPedido` (recorded in
the returned event list), inserted into the dedup set, and the cursor
advances. -/
def processarPedidoDoLote (s : EstadoPoller) (p : Pedido) : EstadoPoller × List String :=
  if p.id ∈ s.pedidosProcessados then
    ({ s with ultimoPedidoProcessado := p.created_at }, [])
  else
    (⟨p.created_at, inserirProcessado s.pedidosProcessados p.id⟩, [p.id])

/-- The order-processing loop of `verificarNovosPedidos` over a fetched
batch, returning the final state and the list of order ids passed to
`processarNovoPedido`, in dispatch order. -/
def processarLote (s : EstadoPoller) : List Pedido → EstadoPoller × List String
  | [] => (s, [])
  | p :: resto =>
      let passo := processarPedidoDoLote s p
      let fim := processarLote passo.1 resto
      (fim.1, passo.2 ++ fim.2)

/-- Comparison used by the fetch's `order('created_at', ascending)`. -/
def ordemCreatedAt (a b : Pedido) : Prop := a.created_at ≤ b.created_at

instance : DecidableRel ordemCreatedAt := fun a b => by
  unfold ordemCreatedAt; infer_instance

instance : IsTotal Pedido ordemCreatedAt :=
  ⟨fun a b => Nat.le_total a.created_at b.created_at⟩

instance : IsTrans Pedido ordemCreatedAt :=
  ⟨fun _ _ _ hab hbc => Nat.le_trans hab hbc⟩

/-- The supabase fetch of `verificarNovosPedidos`:
`.gt('created_at', ultimoPedidoProcessado).order('created_at',
ascending: true).limit(10)` evaluated against a snapshot `store` of the
`orders` table. -/
def buscarNovosPedidos (store : List Pedido) (cursor : Nat) : List Pedido :=
  (List.insertionSort ordemCreatedAt (store.filter fun p => cursor < p.created_at)).take 10

/-- `verificarStatusLoja` (src/index.js lines 311-334): the store is
considered closed by the admin exactly when the `manual_status` setting
value is the string `closed`; any other value (including unset) leaves
the store open. -/
def verificarStatusLoja (settingValue : Option String) : Bool :=
  settingValue = some "closed"

/-- One tick of `verificarNovosPedidos`: if `lojaFechadaPeloAdmin` is
set the tick returns immediately (no fetch, no dispatch, no state
change); otherwise it fetches and runs the processing loop. -/
def verificarNovosPedidosTick (lojaFechadaPeloAdmin : Bool) (store : List Pedido)
    (s : EstadoPoller) : EstadoPoller × List String :=
  if lojaFechadaPeloAdmin then (s, [])
  else processarLote s (buscarNovosPedidos store s.ultimoPedidoProcessado)

/-- A run of successive poller ticks, each against its own store
snapshot and admin flag. -/
def executarTicks (s : EstadoPoller) : List (Bool × List Pedido) → EstadoPoller
  | [] => s
  | (fechada, store) :: resto =>
      executarTicks (verificarNovosPedidosTick fechada store s).1 resto

/-! ## Notification dispatch (src/index.js, `processarNovoPedido`,
`processarAtualizacaoStatus`, `enviarMensagem`) -/

/-- `formatarNumeroWhatsApp` (src/index.js lines 105-130): `null` for a
falsy phone; otherwise strip non-digits, prefix `55` when missing, drop
the mobile ninth digit of a 13-digit number, and append the WhatsApp
JID suffix. -/
def formatarNumeroWhatsApp (telefone : Option String) : Option String :=
  if ¬ truthyStr telefone then none
  else
    let digitos := ((telefone.getD "").toList.filter Char.isDigit)
    let numero := if (String.mk digitos).startsWith "55" then digitos
                  else '5' :: '5' :: digitos
    let numero :=
      if numero.length = 13 ∧ (String.mk numero).startsWith "55" then
        let ddd := (numero.drop 2).take 2
        let nono := (numero.drop 4).take 1
        let resto := numero.drop 5
        if nono = ['9'] then '5' :: '5' :: (ddd ++ resto) else numero
      else numero
    some (String.mk numero ++ "@s.whatsapp.net")

/-- `enviarMensagem` (src/index.js lines 135-157): fails (returns
`false`) when the socket is not connected or the phone does not yield a
JID; otherwise the transport attempt succeeds or fails according to the
oracle `envioOk` (a thrown transport error is caught and reported as
`false` — the function never throws). -/
def enviarMensagem (conectado : Bool) (envioOk : String → Bool)
    (telefone : Option String) : Bool :=
  if ¬ conectado then false
  else
    match formatarNumeroWhatsApp telefone with
    | none => false
    | some jid => envioOk jid

/-- The courier loop of `processarNovoPedido` (src/index.js lines
202-213): one send attempt per courier with a (truthy) phone, in list
order, each followed by a forced 500 ms pause. Returns the attempts and
the accumulated pause. -/
def enviarParaEntregadores (conectado : Bool) (envioOk : String → Bool) :
    List Entregador → List (String × Bool) × Nat
  | [] => ([], 0)
  | e :: resto =>
      let fim := enviarParaEntregadores conectado envioOk resto
      if truthyStr e.telefone then
        ((e.telefone.getD "", enviarMensagem conectado envioOk e.telefone) :: fim.1,
         500 + fim.2)
      else fim

/-- `processarNovoPedido` (src/index.js lines 165-215): sends the
customer confirmation (when a phone is present), then the store
notification (when `NUMERO_LOJA` is configured), then — for delivery
orders with a non-empty courier list — one courier notification per
courier with a phone, with a 500 ms pause after each courier send.
Returns the list of `enviarMensagem` attempts (recipient phone paired
with the send outcome) in program order, together with the total forced
fan-out delay in milliseconds. -/
def processarNovoPedido (conectado : Bool) (envioOk : String → Bool)
    (numeroLoja : String) (entregadores : List Entregador) (pedido : Pedido) :
    List (String × Bool) × Nat :=
  let telefoneCliente := jsOuStr pedido.customer_phone pedido.telefone
  let orderType := (jsOuStr pedido.order_type pedido.tipo_entrega).getD ""
  let enviosCliente :=
    match telefoneCliente with
    | some t => [(t, enviarMensagem conectado envioOk (some t))]
    | none => []
  let enviosLoja :=
    if numeroLoja ≠ "" then
      [(numeroLoja, enviarMensagem conectado envioOk (some numeroLoja))]
    else []
  let fanout :=
    if orderType = "delivery" ∨ orderType = "entrega" then
      if entregadores = [] then ([], 0)
      else enviarParaEntregadores conectado envioOk entregadores
    else ([], 0)
  (enviosCliente ++ enviosLoja ++ fanout.1, fanout.2)

/-- The `statusNotificar` list of `processarAtualizacaoStatus`
(src/index.js lines 221-228). -/
def statusNotificar : List String :=
  ["confirmed", "confirmado",
   "preparing", "preparando",
   "ready", "pronto",
   "out_for_delivery", "saiu_entrega",
   "delivered", "entregue",
   "completed", "finalizado"]

/-- `processarAtualizacaoStatus` (src/index.js lines 220-246): a status
outside `statusNotificar` produces no sends; otherwise the store is
notified (when `NUMERO_LOJA` is configured), and the customer is
additionally notified when the status is `ready`/`pronto` and a
customer phone is present. Returns the recipients of the
`enviarMensagem` attempts, in program order. -/
def processarAtualizacaoStatus (numeroLoja : String) (pedido : Pedido) : List String :=
  if pedido.status ∉ statusNotificar then []
  else
    let enviosLoja := if numeroLoja ≠ "" then [numeroLoja] else []
    let telefoneCliente := jsOuStr pedido.customer_phone pedido.telefone
    let enviosCliente :=
      if pedido.status = "ready" ∨ pedido.status = "pronto" then
        match telefoneCliente with
        | some t => [t]
        | none => []
      else []
    enviosLoja ++ enviosCliente

/-! ## Connection close handler (src/index.js, `iniciarConexaoWhatsApp`,
`connection.update` with `connection === 'close'`) -/

/-- `MAX_TENTATIVAS_RECONEXAO` from src/index.js. -/
def MAX_TENTATIVAS_RECONEXAO : Nat := 5

/-- `DELAY_BASE_RECONEXAO_MS` from src/index.js. -/
def DELAY_BASE_RECONEXAO_MS : Nat := 3000

/-- The reconnection counters of src/index.js (`estaAutenticado`,
`contadorQrCodes`, `tentativasReconexao`). -/
structure EstadoConexao where
  estaAutenticado : Bool
  contadorQrCodes : Nat
  tentativasReconexao : Nat
deriving DecidableEq, Repr

/-- The action the close handler takes after updating the counters. -/
inductive AcaoFechamento where
  /-- Initial connection closed before any QR: wait for the pairing
  event already in flight. -/
  | aguardarQrInicial : AcaoFechamento
  /-- Forced logout: clear the session and restart after a fixed delay
  (milliseconds). -/
  | reiniciarAposLogout (delayMs : ℚ) : AcaoFechamento
  /-- Authenticated or transient closure: schedule a reconnect after
  the exponential-backoff delay (milliseconds). -/
  | reconectarComBackoff (delayMs : ℚ) : AcaoFechamento
  /-- QR codes already issued: wait for the user to scan. -/
  | aguardarEscaneamento : AcaoFechamento
  /-- Fallback: reconnect after a fixed delay (milliseconds). -/
  | reconectarPadrao (delayMs : ℚ) : AcaoFechamento
deriving DecidableEq, Repr

/-- JavaScript `Math.pow(2, e)` at an integer exponent, as used by the
backoff computation (the exponent `tentativasReconexao - 1` is `-1`
after a cap reset, giving the fractional factor `1/2`). -/
def potencia2 (e : Int) : ℚ :=
  if 0 ≤ e then ((2 ^ e.toNat : Nat) : ℚ) else (((2 ^ (-e).toNat : Nat) : ℚ))⁻¹

/-- The `connection === 'close'` branch of the `connection.update`
handler (src/index.js lines 471-537), given the cause classification
(`foiLogout`, `foiDesconexaoTemporaria`) derived from the disconnect
status code. Returns the updated counters and the scheduled action. -/
def aoFecharConexao (st : EstadoConexao) (foiLogout foiDesconexaoTemporaria : Bool) :
    EstadoConexao × AcaoFechamento :=
  let eConexaoInicial := st.estaAutenticado = false ∧ st.contadorQrCodes = 0
  if eConexaoInicial then (st, .aguardarQrInicial)
  else if foiLogout then (⟨false, 0, 0⟩, .reiniciarAposLogout 2000)
  else if st.estaAutenticado = true ∨ foiDesconexaoTemporaria = true then
    let t := st.tentativasReconexao + 1
    let r : Nat × Nat :=
      if MAX_TENTATIVAS_RECONEXAO < t then (0, 0) else (t, st.contadorQrCodes)
    let delayReconexao : ℚ :=
      (DELAY_BASE_RECONEXAO_MS : ℚ) * potencia2 ((r.1 : Int) - 1)
    (⟨st.estaAutenticado, r.2, r.1⟩, .reconectarComBackoff delayReconexao)
  else if 0 < st.contadorQrCodes then (st, .aguardarEscaneamento)
  else (st, .reconectarPadrao 5000)

/-! ## PIX key rotation (src/lib/pix.js, `selecionarChavePixInteligente`) -/

/-- One rotating PIX key. -/
structure ChavePix where
  tipo : String
  chave : String
  titular : String
deriving DecidableEq, Repr

/-- The fixed `CHAVES_PIX` list of src/lib/pix.js. -/
def CHAVES_PIX : List ChavePix :=
  [⟨"Aleatória", "74849085-bf79-49ce-9897-95ccee2a3004", "Rei do Churrasco"⟩,
   ⟨"E-mail", "Marcos.f.alves1984@gmail.com", "Rei do Churrasco"⟩]

/-- `INTERVALO_BLOQUEIO_REPETICAO_MS` from src/lib/pix.js (6 hours). -/
def INTERVALO_BLOQUEIO_REPETICAO_MS : Nat := 6 * 60 * 60 * 1000

/-- `RETENCAO_HISTORICO_MS` from src/lib/pix.js (24 hours). -/
def RETENCAO_HISTORICO_MS : Nat := 24 * 60 * 60 * 1000

/-- `LIMITE_HISTORICO` from src/lib/pix.js. -/
def LIMITE_HISTORICO : Nat := 2000

/-- The selector's mutable maps: `ultimoEnvioPorNumero` (normalized
number to selected index and timestamp) and `usoPorIndice` (key index
to `timesSelected`). -/
structure EstadoPix where
  ultimoEnvioPorNumero : List (String × Nat × Nat)
  usoPorIndice : List (Nat × Nat)
deriving DecidableEq, Repr

/-- The module-load state of src/lib/pix.js for a key list `chaves`:
empty history and a zero usage counter per index. -/
def estadoPixInicial (chaves : List ChavePix) : EstadoPix :=
  ⟨[], (List.range chaves.length).map fun i => (i, 0)⟩

/-- `normalizarNumero`: keep only digits. -/
def normalizarNumero (numero : String) : String :=
  String.mk (numero.toList.filter Char.isDigit)

/-- `limparHistoricoAntigo` at time `agora`: drop entries with a falsy
timestamp or older than the retention window; then, if the map still
exceeds `LIMITE_HISTORICO`, delete the oldest-by-timestamp entries
until back at the cap. -/
def limparHistoricoAntigo (agora : Nat) (hist : List (String × Nat × Nat)) :
    List (String × Nat × Nat) :=
  let purgado := hist.filter fun e => e.2.2 ≠ 0 ∧ agora - e.2.2 ≤ RETENCAO_HISTORICO_MS
  if purgado.length ≤ LIMITE_HISTORICO then purgado
  else
    let vitimas :=
      ((List.insertionSort (fun a b => a.2.2 ≤ b.2.2) purgado).take
        (purgado.length - LIMITE_HISTORICO)).map Prod.fst
    purgado.filter fun e => e.1 ∉ vitimas

/-- `usoPorIndice.get(indice) || 0`. -/
def usoDoIndice (uso : List (Nat × Nat)) (indice : Nat) : Nat :=
  (buscarMapa uso indice).getD 0

/-- The restore step of `selecionarChavePixInteligente`
(src/lib/pix.js lines 74-76): if the anti-repetition filter emptied the
candidate set, restore the full set. -/
def restaurarSeVazio (todos candidatos : List Nat) : List Nat :=
  if candidatos = [] then todos else candidatos

/-- The anti-repetition filter of `selecionarChavePixInteligente`
(src/lib/pix.js lines 65-72): when more than one key exists and the
requester's last selection is inside the block window, remove its index
from the full index list. -/
def filtrarBloqueado (chaves : List ChavePix) (ultimoEnvio : Option (Nat × Nat))
    (agora : Nat) : List Nat :=
  match ultimoEnvio with
  | some (indice, timestamp) =>
      if 1 < chaves.length ∧ agora - timestamp < INTERVALO_BLOQUEIO_REPETICAO_MS then
        (List.range chaves.length).filter fun i => i ≠ indice
      else List.range chaves.length
  | none => List.range chaves.length

/-- The candidate-index computation of `selecionarChavePixInteligente`
(src/lib/pix.js lines 63-76): all indices, minus the requester's
blocked index when inside the block window, with the full set restored
if the removal emptied it. `ultimoEnvio` is the (already purged)
history entry of the normalized requester number. -/
def indicesCandidatosPix (chaves : List ChavePix) (ultimoEnvio : Option (Nat × Nat))
    (agora : Nat) : List Nat :=
  restaurarSeVazio (List.range chaves.length) (filtrarBloqueado chaves ultimoEnvio agora)

/-- The history lookup at the top of `selecionarChavePixInteligente`:
purge the history at time `agora`, then look up the normalized
requester number (an empty normalized number is falsy and never
consulted). -/
def consultaUltimoEnvio (agora : Nat) (numeroRemetente : String) (st : EstadoPix) :
    Option (Nat × Nat) :=
  let hist := limparHistoricoAntigo agora st.ultimoEnvioPorNumero
  let numeroNormalizado := normalizarNumero numeroRemetente
  if numeroNormalizado ≠ "" then buscarMapa hist numeroNormalizado else none

/-- `Math.min(...)` over the `timesSelected` counters of the non-empty
candidate list `c :: cs`. -/
def menorUsoPix (uso : List (Nat × Nat)) (c : Nat) (cs : List Nat) : Nat :=
  (cs.map (usoDoIndice uso)).foldl min (usoDoIndice uso c)

/-- The fairness tie-break of `selecionarChavePixInteligente`
(src/lib/pix.js lines 78-81) on the non-empty candidate list `c :: cs`:
restrict to the indices attaining the minimal `timesSelected` (falling
back to all candidates if that set were empty) and draw by the seed
`r` modulo the group size. -/
def indiceSorteadoPix (uso : List (Nat × Nat)) (r : Nat) (c : Nat) (cs : List Nat) : Nat :=
  let menorUso := menorUsoPix uso c cs
  let indicesBalanceados := (c :: cs).filter fun i => usoDoIndice uso i = menorUso
  let grupoSorteio := if indicesBalanceados ≠ [] then indicesBalanceados else c :: cs
  grupoSorteio.getD (r % grupoSorteio.length) 0

/-- `selecionarChavePixInteligente` for a key list `chaves` (the source
instantiates `chaves := CHAVES_PIX`), with the `Math.random` draw
modelled by the seed `r` reduced modulo the tie-break group size.
Returns the selected key (`none` only when `chaves` is empty) and the
updated maps. -/
def selecionarChavePixInteligente (chaves : List ChavePix) (r : Nat) (agora : Nat)
    (numeroRemetente : String) (st : EstadoPix) : Option ChavePix × EstadoPix :=
  let hist := limparHistoricoAntigo agora st.ultimoEnvioPorNumero
  let numeroNormalizado := normalizarNumero numeroRemetente
  let ultimoEnvio := consultaUltimoEnvio agora numeroRemetente st
  let indicesCandidatos := indicesCandidatosPix chaves ultimoEnvio agora
  match indicesCandidatos with
  | [] => (none, ⟨hist, st.usoPorIndice⟩)
  | c :: cs =>
      let indiceSorteado := indiceSorteadoPix st.usoPorIndice r c cs
      let uso' := definirMapa st.usoPorIndice indiceSorteado
        (usoDoIndice st.usoPorIndice indiceSorteado + 1)
      let hist' :=
        if numeroNormalizado ≠ "" then
          definirMapa hist numeroNormalizado (indiceSorteado, agora)
        else hist
      (chaves.get? indiceSorteado, ⟨hist', uso'⟩)

/-! ## Automated replies and anti-spam
(src/lib/respostasAutomaticas.js, `processarMensagemRecebida`) -/

/-- `INTERVALO_MINIMO_RESPOSTA_MS` from src/lib/respostasAutomaticas.js
(2 minutes between replies per number). -/
def INTERVALO_MINIMO_RESPOSTA_MS : Nat := 2 * 60 * 1000

/-- The intents `detectarIntencao` can recognise. Keyword matching
itself is an external collaborator (spec §1); the anti-spam pipeline is
modelled from the detected intent onward. -/
inductive Intencao where
  | saudacao | churrasco | pix | horario | pedido | entrega | marmita | localizacao
deriving DecidableEq, Repr

/-- `podeResponder` (src/lib/respostasAutomaticas.js lines 341-350):
a sender may be answered unless its recorded reply timestamp is truthy
and less than 2 minutes old. -/
def podeResponder (ultimasRespostas : List (String × Nat)) (numeroRemetente : String)
    (agora : Nat) : Bool :=
  match buscarMapa ultimasRespostas numeroRemetente with
  | some ultimaResposta =>
      ¬ (ultimaResposta ≠ 0 ∧ agora - ultimaResposta < INTERVALO_MINIMO_RESPOSTA_MS)
  | none => true

/-- `registrarResposta` (src/lib/respostasAutomaticas.js lines
355-365): record `agora` for the sender, then purge entries older than
one hour. -/
def registrarResposta (ultimasRespostas : List (String × Nat)) (numeroRemetente : String)
    (agora : Nat) : List (String × Nat) :=
  (definirMapa ultimasRespostas numeroRemetente agora).filter
    fun e => agora - e.2 ≤ 60 * 60 * 1000

/-- `processarMensagemRecebida` (src/lib/respostasAutomaticas.js lines
700-741) from the detected intent onward: no recognised intent means no
reply and no state change; a recognised non-`pix` intent inside the
anti-spam window is dropped without touching the state; otherwise the
reply timestamp is recorded and the reply for the intent is produced
(the reply text is generated by the out-of-scope templating
collaborator and is represented by its intent). -/
def processarMensagemRecebida (intencao : Option Intencao) (numeroRemetente : String)
    (agora : Nat) (ultimasRespostas : List (String × Nat)) :
    Option Intencao × List (String × Nat) :=
  match intencao with
  | none => (none, ultimasRespostas)
  | some i =>
      if i ≠ .pix ∧ podeResponder ultimasRespostas numeroRemetente agora = false then
        (none, ultimasRespostas)
      else
        (some i, registrarResposta ultimasRespostas numeroRemetente agora)

/-! ## Auxiliary definitions for the verification -/

/-- The id `i` is among the last `j` insertions of the dedup list
(used to track survival of an id across cache trims). -/
def NosUltimos (j : Nat) (i : String) (l : List String) : Prop :=
  i ∈ l.drop (l.length - j)

/-- Run a sequence of PIX selections; each element of the sequence is a
requester number, the selection time, and the random seed. -/
def selecionarSeqPix (st : EstadoPix) : List (String × Nat × Nat) → EstadoPix
  | [] => st
  | (numero, agora, r) :: resto =>
      selecionarSeqPix (selecionarChavePixInteligente CHAVES_PIX r agora numero st).2 resto

/-- Every selection of the sequence is made by a requester with no
recency conflict: at its selection time the purged history holds no
entry for its normalized number. -/
def seqRemetentesFrescos (st : EstadoPix) : List (String × Nat × Nat) → Bool
  | [] => true
  | (numero, agora, r) :: resto =>
      consultaUltimoEnvio agora numero st = none &&
      seqRemetentesFrescos (selecionarChavePixInteligente CHAVES_PIX r agora numero st).2 resto

/-- A sample order in the `ready` state with a customer phone. -/
def pedidoProntoExemplo : Pedido :=
  ⟨"pedido-1", 5000, "ready", some "86988887777", none, some "delivery", none⟩

/-- A sample delivery order without a customer phone. -/
def pedidoEntregaExemplo : Pedido :=
  ⟨"pedido-2", 6000, "pending", none, none, some "delivery", none⟩

/-- A directory of 21 active couriers, each with a phone number. -/
def entregadoresExemplo : List Entregador :=
  (List.range 21).map fun k => ⟨"Entregador", some (toString (86990000000 + k))⟩

/-! ## Shared lemmas about the map model -/

theorem buscarMapa_definirMapa_self {κ β : Type} [DecidableEq κ]
    (l : List (κ × β)) (k : κ) (v : β) :
    buscarMapa (definirMapa l k v) k = some v := by
  induction l with
  | nil => simp [definirMapa, buscarMapa]
  | cons e resto ih =>
      obtain ⟨k', v'⟩ := e
      by_cases h : k' = k
      · simp [definirMapa, buscarMapa, h]
      · simp [definirMapa, buscarMapa, h, ih]

theorem buscarMapa_filter {κ β : Type} [DecidableEq κ]
    (p : κ × β → Bool) (l : List (κ × β)) (k : κ) (v : β)
    (hv : buscarMapa l k = some v) (hp : p (k, v) = true) :
    buscarMapa (l.filter p) k = some v := by
  induction l with
  | nil => simp [buscarMapa] at hv
  | cons e resto ih =>
      obtain ⟨k', v'⟩ := e
      by_cases h : k' = k
      · subst h
        simp [buscarMapa] at hv
        subst hv
        simp [List.filter, hp, buscarMapa]
      · simp [buscarMapa, h] at hv
        cases hpe : p (k', v') with
        | true => simpa [List.filter, hpe, buscarMapa, h] using ih hv
        | false => simpa [List.filter, hpe] using ih hv

theorem length_definirMapa_le {κ β : Type} [DecidableEq κ]
    (l : List (κ × β)) (k : κ) (v : β) :
    (definirMapa l k v).length ≤ l.length + 1 := by
  induction l with
  | nil => simp [definirMapa]
  | cons e resto ih =>
      obtain ⟨k', v'⟩ := e
      by_cases h : k' = k
      · simp [definirMapa, h]
      · simpa [definirMapa, h, Nat.succ_le_succ_iff] using ih

/-! ## C6 — status-change gating -/

/-- C6: a status change to `pending` (or any status outside the
notify-worthy set) produces zero sends; a notify-worthy status always
notifies the configured store; `ready` additionally notifies the
customer exactly when a customer phone is present, giving exactly two
sends with a phone and exactly one without. -/
theorem claim_C6 (numeroLoja : String) (pedido : Pedido) (hLoja : numeroLoja ≠ "") :
    (pedido.status = "pending" → processarAtualizacaoStatus numeroLoja pedido = []) ∧
    (pedido.status ∉ statusNotificar → processarAtualizacaoStatus numeroLoja pedido = []) ∧
    (pedido.status = "ready" →
      ∀ t, jsOuStr pedido.customer_phone pedido.telefone = some t →
        processarAtualizacaoStatus numeroLoja pedido = [numeroLoja, t]) ∧
    (pedido.status = "ready" →
      jsOuStr pedido.customer_phone pedido.telefone = none →
        processarAtualizacaoStatus numeroLoja pedido = [numeroLoja]) ∧
    (pedido.status ∈ statusNotificar →
      numeroLoja ∈ processarAtualizacaoStatus numeroLoja pedido) := by
  refine ⟨?_, ?_, ?_, ?_, ?_⟩
  · intro h
    simp [processarAtualizacaoStatus, h, statusNotificar]
  · intro h
    simp [processarAtualizacaoStatus, h]
  · intro h t ht
    simp [processarAtualizacaoStatus, h, statusNotificar, ht, hLoja]
  · intro h ht
    simp [processarAtualizacaoStatus, h, statusNotificar, ht, hLoja]
  · intro h
    simp [processarAtualizacaoStatus, h, hLoja]

/-- Witness for C6 at a concrete store number and order. -/
theorem claim_C6_witness :
    (("5586000000000" : String) ≠ "") ∧
    ((pedidoProntoExemplo.status = "pending" →
        processarAtualizacaoStatus "5586000000000" pedidoProntoExemplo = []) ∧
     (pedidoProntoExemplo.status ∉ statusNotificar →
        processarAtualizacaoStatus "5586000000000" pedidoProntoExemplo = []) ∧
     (pedidoProntoExemplo.status = "ready" →
       ∀ t, jsOuStr pedidoProntoExemplo.customer_phone pedidoProntoExemplo.telefone = some t →
         processarAtualizacaoStatus "5586000000000" pedidoProntoExemplo = ["5586000000000", t]) ∧
     (pedidoProntoExemplo.status = "ready" →
       jsOuStr pedidoProntoExemplo.customer_phone pedidoProntoExemplo.telefone = none →
         processarAtualizacaoStatus "5586000000000" pedidoProntoExemplo = ["5586000000000"]) ∧
     (pedidoProntoExemplo.status ∈ statusNotificar →
        "5586000000000" ∈ processarAtualizacaoStatus "5586000000000" pedidoProntoExemplo)) :=
  ⟨by decide, claim_C6 "5586000000000" pedidoProntoExemplo (by decide)⟩

/-! ## C10 — anti-spam window for automated replies -/

/-- C10: a recognised non-`pix` intent from a sender answered less than
2 minutes ago is dropped (no reply, state untouched); a `pix` intent is
always answered; whenever no reply is produced the anti-spam map is
unchanged, and whenever a reply is produced the sender's timestamp is
recorded. -/
theorem claim_C10 (numeroRemetente : String) (agora t : Nat)
    (ultimas : List (String × Nat)) (ht0 : t ≠ 0)
    (htw : agora - t < INTERVALO_MINIMO_RESPOSTA_MS) :
    (∀ i : Intencao, i ≠ .pix →
       buscarMapa ultimas numeroRemetente = some t →
       processarMensagemRecebida (some i) numeroRemetente agora ultimas = (none, ultimas)) ∧
    ((processarMensagemRecebida (some .pix) numeroRemetente agora ultimas).1 = some .pix) ∧
    (∀ io : Option Intencao,
       (processarMensagemRecebida io numeroRemetente agora ultimas).1 = none →
       (processarMensagemRecebida io numeroRemetente agora ultimas).2 = ultimas) ∧
    (∀ (io : Option Intencao) (resp : Intencao) (ultimas' : List (String × Nat)),
       processarMensagemRecebida io numeroRemetente agora ultimas = (some resp, ultimas') →
       buscarMapa ultimas' numeroRemetente = some agora) := by
  refine ⟨?_, ?_, ?_, ?_⟩
  · intro i hi hbusca
    simp [processarMensagemRecebida, podeResponder, hbusca, ht0, htw, hi]
  · simp [processarMensagemRecebida]
  · intro io h
    match io with
    | none => rfl
    | some i =>
        by_cases hcond : i ≠ Intencao.pix ∧
          podeResponder ultimas numeroRemetente agora = false
        · simp [processarMensagemRecebida, hcond]
        · simp [processarMensagemRecebida, hcond] at h
  · intro io resp ultimas' h
    match io with
    | none => simp [processarMensagemRecebida] at h
    | some i =>
        by_cases hcond : i ≠ Intencao.pix ∧
          podeResponder ultimas numeroRemetente agora = false
        · simp [processarMensagemRecebida, hcond] at h
        · simp [processarMensagemRecebida, hcond] at h
          have hreg : ultimas' = registrarResposta ultimas numeroRemetente agora :=
            h.2.symm
          subst hreg
          exact buscarMapa_filter _ _ _ _
            (buscarMapa_definirMapa_self ultimas numeroRemetente agora)
            (by simp)

/-- Witness for C10: the sender was answered 50 s ago. -/
theorem claim_C10_witness :
    ((50000 : Nat) ≠ 0) ∧ (100000 - 50000 < INTERVALO_MINIMO_RESPOSTA_MS) ∧
    ((∀ i : Intencao, i ≠ .pix →
        buscarMapa [("5586", 50000)] "5586" = some 50000 →
        processarMensagemRecebida (some i) "5586" 100000 [("5586", 50000)] =
          (none, [("5586", 50000)])) ∧
     ((processarMensagemRecebida (some .pix) "5586" 100000 [("5586", 50000)]).1 =
        some .pix) ∧
     (∀ io : Option Intencao,
        (processarMensagemRecebida io "5586" 100000 [("5586", 50000)]).1 = none →
        (processarMensagemRecebida io "5586" 100000 [("5586", 50000)]).2 =
          [("5586", 50000)]) ∧
     (∀ (io : Option Intencao) (resp : Intencao) (ultimas' : List (String × Nat)),
        processarMensagemRecebida io "5586" 100000 [("5586", 50000)] =
          (some resp, ultimas') →
        buscarMapa ultimas' "5586" = some 100000)) :=
  ⟨by decide, by decide,
   claim_C10 "5586" 100000 50000 [("5586", 50000)] (by decide) (by decide)⟩

/-! ## C9 — per-recipient failure isolation in the new-order fan-out -/

theorem enviarParaEntregadores_spec (conectado : Bool) (envioOk : String → Bool)
    (entregadores : List Entregador) :
    (enviarParaEntregadores conectado envioOk entregadores).1.map Prod.fst =
      (entregadores.filter fun e => truthyStr e.telefone).map (fun e => e.telefone.getD "") ∧
    (enviarParaEntregadores conectado envioOk entregadores).2 =
      500 * (entregadores.filter fun e => truthyStr e.telefone).length := by
  induction entregadores with
  | nil => simp [enviarParaEntregadores]
  | cons e resto ih =>
      cases ht : truthyStr e.telefone with
      | true =>
          simp [enviarParaEntregadores, ht, ih.1, ih.2]
          omega
      | false => simp [enviarParaEntregadores, ht, ih.1, ih.2]

theorem processarNovoPedido_destinatarios (conectado : Bool) (envioOk : String → Bool)
    (numeroLoja : String) (entregadores : List Entregador) (pedido : Pedido) :
    (processarNovoPedido conectado envioOk numeroLoja entregadores pedido).1.map Prod.fst =
      (match jsOuStr pedido.customer_phone pedido.telefone with
       | some t => [t]
       | none => []) ++
      (if numeroLoja ≠ "" then [numeroLoja] else []) ++
      (if (jsOuStr pedido.order_type pedido.tipo_entrega).getD "" = "delivery" ∨
          (jsOuStr pedido.order_type pedido.tipo_entrega).getD "" = "entrega" then
         if entregadores = [] then []
         else (entregadores.filter fun e => truthyStr e.telefone).map fun e =>
           e.telefone.getD ""
       else []) := by
  cases htc : jsOuStr pedido.customer_phone pedido.telefone with
  | none =>
      by_cases hTipo : (jsOuStr pedido.order_type pedido.tipo_entrega).getD "" = "delivery" ∨
          (jsOuStr pedido.order_type pedido.tipo_entrega).getD "" = "entrega" <;>
        by_cases hEnt : entregadores = [] <;>
        by_cases hLoja : numeroLoja = "" <;>
          simp [processarNovoPedido, htc, hTipo, hEnt, hLoja,
            (enviarParaEntregadores_spec conectado envioOk entregadores).1]
  | some t =>
      by_cases hTipo : (jsOuStr pedido.order_type pedido.tipo_entrega).getD "" = "delivery" ∨
          (jsOuStr pedido.order_type pedido.tipo_entrega).getD "" = "entrega" <;>
        by_cases hEnt : entregadores = [] <;>
        by_cases hLoja : numeroLoja = "" <;>
          simp [processarNovoPedido, htc, hTipo, hEnt, hLoja,
            (enviarParaEntregadores_spec conectado envioOk entregadores).1]

/-- C9: the sequence of attempted recipients of `processarNovoPedido`
is a function of the inputs alone — it does not depend on the success
or failure of any individual send — and for a delivery order every
courier with a phone number is attempted. -/
theorem claim_C9 (conectado : Bool) (envioOk1 envioOk2 : String → Bool)
    (numeroLoja : String) (entregadores : List Entregador) (pedido : Pedido)
    (hTipo : (jsOuStr pedido.order_type pedido.tipo_entrega).getD "" = "delivery" ∨
             (jsOuStr pedido.order_type pedido.tipo_entrega).getD "" = "entrega") :
    ((processarNovoPedido conectado envioOk1 numeroLoja entregadores pedido).1.map Prod.fst =
     (processarNovoPedido conectado envioOk2 numeroLoja entregadores pedido).1.map Prod.fst) ∧
    (∀ e ∈ entregadores, ∀ tel : String, e.telefone = some tel → tel ≠ "" →
       tel ∈ (processarNovoPedido conectado envioOk1 numeroLoja entregadores
         pedido).1.map Prod.fst) := by
  constructor
  · rw [processarNovoPedido_destinatarios, processarNovoPedido_destinatarios]
  · intro e he tel htel hne
    rw [processarNovoPedido_destinatarios]
    have hent : entregadores ≠ [] := by
      intro h; subst h; simp at he
    have hmem : tel ∈ (entregadores.filter fun e => truthyStr e.telefone).map fun e =>
        e.telefone.getD "" := by
      refine List.mem_map.mpr ⟨e, ?_, by simp [htel]⟩
      exact List.mem_filter.mpr ⟨he, by simp [truthyStr, htel, hne]⟩
    simp [hTipo, hent]
    refine Or.inr (Or.inr ?_)
    simpa using hmem

/-- Witness for C9: a delivery order, three couriers (one without a
phone), an oracle failing every send versus one succeeding. -/
theorem claim_C9_witness :
    ((jsOuStr pedidoProntoExemplo.order_type pedidoProntoExemplo.tipo_entrega).getD "" =
       "delivery" ∨
     (jsOuStr pedidoProntoExemplo.order_type pedidoProntoExemplo.tipo_entrega).getD "" =
       "entrega") ∧
    (((processarNovoPedido true (fun _ => false) "5586000000000"
         [⟨"A", some "11"⟩, ⟨"B", none⟩, ⟨"C", some "22"⟩] pedidoProntoExemplo).1.map
         Prod.fst =
      (processarNovoPedido true (fun _ => true) "5586000000000"
         [⟨"A", some "11"⟩, ⟨"B", none⟩, ⟨"C", some "22"⟩] pedidoProntoExemplo).1.map
         Prod.fst) ∧
     (∀ e ∈ ([⟨"A", some "11"⟩, ⟨"B", none⟩, ⟨"C", some "22"⟩] : List Entregador),
        ∀ tel : String, e.telefone = some tel → tel ≠ "" →
        tel ∈ (processarNovoPedido true (fun _ => false) "5586000000000"
          [⟨"A", some "11"⟩, ⟨"B", none⟩, ⟨"C", some "22"⟩] pedidoProntoExemplo).1.map
          Prod.fst)) :=
  ⟨by decide,
   claim_C9 true (fun _ => false) (fun _ => true) "5586000000000"
     [⟨"A", some "11"⟩, ⟨"B", none⟩, ⟨"C", some "22"⟩] pedidoProntoExemplo (by decide)⟩

/-! ## C4 — overlapping poller ticks -/

/-- C4 evidence: a single delivery order fanned out to the 21-courier
directory forces 10500 ms of inter-courier pauses inside one tick's
dispatch work — already more than the 10000 ms polling interval, while
`configurarPollingPedidos` schedules `verificarNovosPedidos` with a
bare `setInterval` and no in-progress flag. -/
theorem claim_C4_sem_guarda :
    (processarNovoPedido true (fun _ => true) "5586000000000" entregadoresExemplo
       pedidoProntoExemplo).2 = 10500 ∧
    INTERVALO_POLLING_MS < (processarNovoPedido true (fun _ => true) "5586000000000"
       entregadoresExemplo pedidoProntoExemplo).2 := by
  constructor <;> decide

/-! ## C3 — reconnection backoff -/

/-- C3 counterexample: on the first reconnect attempt (counter
incremented to 1) the scheduled delay is the base 3000 ms, not
`base * 2^(reconnectAttempts)` = 6000 ms as the claim's formula states;
and after exceeding the cap the delay is 1500 ms (the code computes
`base * 2^(-1)` once the counter is reset to 0), not the base value. -/
theorem claim_C3_counterexample :
    ((aoFecharConexao ⟨true, 1, 0⟩ false true).2 =
       AcaoFechamento.reconectarComBackoff 3000 ∧
     (3000 : ℚ) ≠ (DELAY_BASE_RECONEXAO_MS : ℚ) * potencia2 1) ∧
    ((aoFecharConexao ⟨true, 1, 5⟩ false true).1.tentativasReconexao = 0 ∧
     (aoFecharConexao ⟨true, 1, 5⟩ false true).1.contadorQrCodes = 0 ∧
     (aoFecharConexao ⟨true, 1, 5⟩ false true).2 =
       AcaoFechamento.reconectarComBackoff 1500 ∧
     (1500 : ℚ) ≠ (DELAY_BASE_RECONEXAO_MS : ℚ)) := by
  refine ⟨⟨?_, by norm_num [DELAY_BASE_RECONEXAO_MS, potencia2]⟩,
          ?_, ?_, ?_, by norm_num [DELAY_BASE_RECONEXAO_MS]⟩ <;>
    norm_num [aoFecharConexao, MAX_TENTATIVAS_RECONEXAO, DELAY_BASE_RECONEXAO_MS, potencia2]

theorem potencia2_coe (n : Nat) : potencia2 (n : Int) = (2 : ℚ) ^ n := by
  simp [potencia2]

/-- C3 (amended): while the counter is below the cap, attempt
`k = tentativasReconexao + 1` is scheduled after
`base * 2^(k - 1)` milliseconds — the delay starts at the base value
and doubles with each attempt; once the incremented counter exceeds the
cap, both the attempt counter and the QR counter are reset and the next
retry is scheduled after `base * 2^(-1)` = 1500 ms; in every case a
retry is scheduled, so the manager never gives up. -/
theorem claim_C3 (st : EstadoConexao) (foiDesconexaoTemporaria : Bool)
    (hAuth : st.estaAutenticado = true) :
    (st.tentativasReconexao < MAX_TENTATIVAS_RECONEXAO →
       (aoFecharConexao st false foiDesconexaoTemporaria).1.tentativasReconexao =
         st.tentativasReconexao + 1 ∧
       (aoFecharConexao st false foiDesconexaoTemporaria).2 =
         AcaoFechamento.reconectarComBackoff
           ((DELAY_BASE_RECONEXAO_MS : ℚ) * 2 ^ st.tentativasReconexao)) ∧
    (MAX_TENTATIVAS_RECONEXAO ≤ st.tentativasReconexao →
       (aoFecharConexao st false foiDesconexaoTemporaria).1.tentativasReconexao = 0 ∧
       (aoFecharConexao st false foiDesconexaoTemporaria).1.contadorQrCodes = 0 ∧
       (aoFecharConexao st false foiDesconexaoTemporaria).2 =
         AcaoFechamento.reconectarComBackoff 1500) ∧
    (∃ d : ℚ, (aoFecharConexao st false foiDesconexaoTemporaria).2 =
       AcaoFechamento.reconectarComBackoff d) := by
  have hini : ¬ (st.estaAutenticado = false ∧ st.contadorQrCodes = 0) := by
    simp [hAuth]
  have h1 : st.tentativasReconexao < MAX_TENTATIVAS_RECONEXAO →
      (aoFecharConexao st false foiDesconexaoTemporaria).1.tentativasReconexao =
        st.tentativasReconexao + 1 ∧
      (aoFecharConexao st false foiDesconexaoTemporaria).2 =
        AcaoFechamento.reconectarComBackoff
          ((DELAY_BASE_RECONEXAO_MS : ℚ) * 2 ^ st.tentativasReconexao) := by
    intro hlt
    have hcap : ¬ MAX_TENTATIVAS_RECONEXAO < st.tentativasReconexao + 1 := by omega
    have hexp : ((st.tentativasReconexao + 1 : Nat) : Int) - 1 =
        (st.tentativasReconexao : Int) := by push_cast; ring
    simp [aoFecharConexao, hini, hAuth, hcap, hexp, potencia2_coe]
  have h2 : MAX_TENTATIVAS_RECONEXAO ≤ st.tentativasReconexao →
      (aoFecharConexao st false foiDesconexaoTemporaria).1.tentativasReconexao = 0 ∧
      (aoFecharConexao st false foiDesconexaoTemporaria).1.contadorQrCodes = 0 ∧
      (aoFecharConexao st false foiDesconexaoTemporaria).2 =
        AcaoFechamento.reconectarComBackoff 1500 := by
    intro hge
    have hcap : MAX_TENTATIVAS_RECONEXAO < st.tentativasReconexao + 1 := by omega
    simp [aoFecharConexao, hini, hAuth, hcap]
    norm_num [DELAY_BASE_RECONEXAO_MS, potencia2]
  refine ⟨h1, h2, ?_⟩
  rcases Nat.lt_or_ge st.tentativasReconexao MAX_TENTATIVAS_RECONEXAO with hlt | hge
  · exact ⟨_, (h1 hlt).2⟩
  · exact ⟨_, (h2 hge).2.2⟩

/-- Witness for C3 at a mid-stream attempt (counter 2). -/
theorem claim_C3_witness :
    ((⟨true, 3, 2⟩ : EstadoConexao).estaAutenticado = true) ∧
    (((⟨true, 3, 2⟩ : EstadoConexao).tentativasReconexao < MAX_TENTATIVAS_RECONEXAO →
       (aoFecharConexao ⟨true, 3, 2⟩ false true).1.tentativasReconexao =
         (⟨true, 3, 2⟩ : EstadoConexao).tentativasReconexao + 1 ∧
       (aoFecharConexao ⟨true, 3, 2⟩ false true).2 =
         AcaoFechamento.reconectarComBackoff
           ((DELAY_BASE_RECONEXAO_MS : ℚ) *
             2 ^ (⟨true, 3, 2⟩ : EstadoConexao).tentativasReconexao)) ∧
     (MAX_TENTATIVAS_RECONEXAO ≤ (⟨true, 3, 2⟩ : EstadoConexao).tentativasReconexao →
       (aoFecharConexao ⟨true, 3, 2⟩ false true).1.tentativasReconexao = 0 ∧
       (aoFecharConexao ⟨true, 3, 2⟩ false true).1.contadorQrCodes = 0 ∧
       (aoFecharConexao ⟨true, 3, 2⟩ false true).2 =
         AcaoFechamento.reconectarComBackoff 1500) ∧
     (∃ d : ℚ, (aoFecharConexao ⟨true, 3, 2⟩ false true).2 =
        AcaoFechamento.reconectarComBackoff d)) :=
  ⟨rfl, claim_C3 ⟨true, 3, 2⟩ true rfl⟩

/-! ## C5 — closed-store gating of the poller -/

/-- C5 counterexample: with the manual override unset the poller flag
is `false` and a tick proceeds to fetch and dispatch — the schedule
fallback is never consulted by `verificarNovosPedidos`, so a tick with
the override unset is not a no-op even while the schedule reports the
business closed. -/
theorem claim_C5_counterexample :
    verificarStatusLoja none = false ∧
    verificarNovosPedidosTick (verificarStatusLoja none) [pedidoProntoExemplo]
      ⟨0, []⟩ = (⟨5000, ["pedido-1"]⟩, ["pedido-1"]) := by
  constructor <;> decide

/-- C5 (amended): when the `manual_status` override is the string
`closed`, the poller flag is set and the tick is a no-op — nothing is
fetched or dispatched and the cursor and dedup set are unchanged. When
the override is anything else (including unset), the flag is clear and
the tick proceeds regardless of any schedule. -/
theorem claim_C5 (settingValue : Option String) (store : List Pedido)
    (s : EstadoPoller) (h : settingValue = some "closed") :
    verificarStatusLoja settingValue = true ∧
    verificarNovosPedidosTick (verificarStatusLoja settingValue) store s = (s, []) := by
  subst h
  exact ⟨rfl, by simp [verificarStatusLoja, verificarNovosPedidosTick]⟩

/-- Witness for C5 with a non-empty store snapshot. -/
theorem claim_C5_witness :
    (some "closed" = some "closed") ∧
    (verificarStatusLoja (some "closed") = true ∧
     verificarNovosPedidosTick (verificarStatusLoja (some "closed"))
       [pedidoProntoExemplo] ⟨0, []⟩ = (⟨0, []⟩, [])) :=
  ⟨rfl, claim_C5 (some "closed") [pedidoProntoExemplo] ⟨0, []⟩ rfl⟩

/-! ## C2 — cursor monotonicity and the fetch contract -/

theorem processarLote_cursor (s : EstadoPoller) (lote : List Pedido) :
    (processarLote s lote).1.ultimoPedidoProcessado =
      ((lote.getLast?).map Pedido.created_at).getD s.ultimoPedidoProcessado := by
  induction lote generalizing s with
  | nil => simp [processarLote]
  | cons p resto ih =>
      cases resto with
      | nil =>
          by_cases h : p.id ∈ s.pedidosProcessados <;>
            simp [processarLote, processarPedidoDoLote, h]
      | cons q resto' =>
          have hstep : (processarLote s (p :: q :: resto')).1 =
              (processarLote (processarPedidoDoLote s p).1 (q :: resto')).1 := rfl
          rw [hstep, ih, List.getLast?_cons_cons]
          cases hgl : (q :: resto').getLast? with
          | none => exact absurd (List.getLast?_eq_none_iff.mp hgl) (by simp)
          | some u => rfl

theorem buscarNovosPedidos_gt (store : List Pedido) (cursor : Nat) :
    ∀ p ∈ buscarNovosPedidos store cursor, cursor < p.created_at := by
  intro p hp
  have h1 : p ∈ List.insertionSort ordemCreatedAt
      (store.filter fun q => cursor < q.created_at) :=
    List.take_subset _ _ hp
  have h2 : p ∈ store.filter fun q => cursor < q.created_at :=
    (List.mem_insertionSort ordemCreatedAt).mp h1
  exact of_decide_eq_true (List.mem_filter.mp h2).2

theorem buscarNovosPedidos_sorted (store : List Pedido) (cursor : Nat) :
    List.Sorted ordemCreatedAt (buscarNovosPedidos store cursor) :=
  (List.sorted_insertionSort ordemCreatedAt _).sublist (List.take_sublist _ _)

theorem tick_cursor_mono (fechada : Bool) (store : List Pedido) (s : EstadoPoller) :
    s.ultimoPedidoProcessado ≤
      (verificarNovosPedidosTick fechada store s).1.ultimoPedidoProcessado := by
  cases fechada with
  | true => simp [verificarNovosPedidosTick]
  | false =>
      simp only [verificarNovosPedidosTick, Bool.false_eq_true, if_false]
      rw [processarLote_cursor]
      cases hl : (buscarNovosPedidos store s.ultimoPedidoProcessado).getLast? with
      | none => simp
      | some p =>
          have hp : p ∈ buscarNovosPedidos store s.ultimoPedidoProcessado :=
            List.mem_of_mem_getLast? hl
          have := buscarNovosPedidos_gt store s.ultimoPedidoProcessado p hp
          simp
          omega

/-- C2: every fetched order has `created_at` strictly above the cursor
and the fetched batch is ascending by `created_at`; a tick never
decreases the cursor, and an open tick whose fetched batch ends with
order `p` leaves the cursor exactly at `p.created_at` (the duplicate
and non-duplicate branches both advance it); consequently the cursor is
non-decreasing over any sequence of ticks. -/
theorem claim_C2 (store : List Pedido) (c : Nat) (s : EstadoPoller) (fechada : Bool)
    (ticks : List (Bool × List Pedido)) (p : Pedido) :
    (∀ q ∈ buscarNovosPedidos store c, c < q.created_at) ∧
    List.Sorted ordemCreatedAt (buscarNovosPedidos store c) ∧
    (s.ultimoPedidoProcessado ≤
      (verificarNovosPedidosTick fechada store s).1.ultimoPedidoProcessado) ∧
    ((buscarNovosPedidos store s.ultimoPedidoProcessado).getLast? = some p →
      (verificarNovosPedidosTick false store s).1.ultimoPedidoProcessado =
        p.created_at) ∧
    (s.ultimoPedidoProcessado ≤ (executarTicks s ticks).ultimoPedidoProcessado) := by
  refine ⟨buscarNovosPedidos_gt store c, buscarNovosPedidos_sorted store c,
    tick_cursor_mono fechada store s, ?_, ?_⟩
  · intro hult
    simp only [verificarNovosPedidosTick, Bool.false_eq_true, if_false]
    rw [processarLote_cursor, hult]
    rfl
  · induction ticks generalizing s with
    | nil => exact Nat.le_refl _
    | cons t resto ih =>
        obtain ⟨fechada', store'⟩ := t
        exact Nat.le_trans (tick_cursor_mono fechada' store' s) (ih _)

/-- Witness for C2 on a two-order store snapshot. -/
theorem claim_C2_witness :
    ((∀ q ∈ buscarNovosPedidos [pedidoProntoExemplo, pedidoEntregaExemplo] 0,
        0 < q.created_at) ∧
     List.Sorted ordemCreatedAt
       (buscarNovosPedidos [pedidoProntoExemplo, pedidoEntregaExemplo] 0) ∧
     ((⟨0, []⟩ : EstadoPoller).ultimoPedidoProcessado ≤
       (verificarNovosPedidosTick false [pedidoProntoExemplo, pedidoEntregaExemplo]
         ⟨0, []⟩).1.ultimoPedidoProcessado) ∧
     ((buscarNovosPedidos [pedidoProntoExemplo, pedidoEntregaExemplo]
         (⟨0, []⟩ : EstadoPoller).ultimoPedidoProcessado).getLast? =
           some pedidoEntregaExemplo →
       (verificarNovosPedidosTick false [pedidoProntoExemplo, pedidoEntregaExemplo]
         ⟨0, []⟩).1.ultimoPedidoProcessado = pedidoEntregaExemplo.created_at) ∧
     ((⟨0, []⟩ : EstadoPoller).ultimoPedidoProcessado ≤
       (executarTicks ⟨0, []⟩
         [(false, [pedidoProntoExemplo]), (true, [pedidoEntregaExemplo])]).ultimoPedidoProcessado)) :=
  claim_C2 [pedidoProntoExemplo, pedidoEntregaExemplo] 0 ⟨0, []⟩ false
    [(false, [pedidoProntoExemplo]), (true, [pedidoEntregaExemplo])] pedidoEntregaExemplo

/-! ## C1 — order dedup across successive ticks -/

theorem NosUltimos.mem {j : Nat} {i : String} {l : List String}
    (h : NosUltimos j i l) : i ∈ l :=
  List.drop_subset _ _ h

theorem NosUltimos.mono {j j' : Nat} {i : String} {l : List String}
    (hjj : j ≤ j') (h : NosUltimos j i l) : NosUltimos j' i l := by
  unfold NosUltimos at h ⊢
  have heq : l.drop (l.length - j) =
      (l.drop (l.length - j')).drop ((l.length - j) - (l.length - j')) := by
    rw [List.drop_drop]
    congr 1
    omega
  rw [heq] at h
  exact List.drop_subset _ _ h

theorem NosUltimos.append {j : Nat} {i : String} {l : List String} (x : String)
    (h : NosUltimos j i l) : NosUltimos (j + 1) i (l ++ [x]) := by
  have him : i ∈ l := h.mem
  unfold NosUltimos at h ⊢
  rcases le_or_lt l.length j with hle | hlt
  · have h0 : (l ++ [x]).length - (j + 1) = 0 := by
      simp only [List.length_append, List.length_singleton]
      omega
    rw [h0, List.drop_zero]
    exact List.mem_append_left _ him
  · have harith : (l ++ [x]).length - (j + 1) = l.length - j := by
      simp only [List.length_append, List.length_singleton]
      omega
    rw [harith, List.drop_append_of_le_length (by omega)]
    exact List.mem_append_left _ h

theorem NosUltimos.drop_trim {j : Nat} {i : String} {l : List String}
    (hj : j ≤ MAX_PEDIDOS_CACHE) (hlen : MAX_PEDIDOS_CACHE < l.length)
    (h : NosUltimos j i l) : NosUltimos j i (l.drop (l.length - MAX_PEDIDOS_CACHE)) := by
  unfold NosUltimos at h ⊢
  rw [List.length_drop, List.drop_drop]
  have harith : l.length - MAX_PEDIDOS_CACHE +
      (l.length - (l.length - MAX_PEDIDOS_CACHE) - j) = l.length - j := by omega
  rw [harith]
  exact h

theorem NosUltimos.inserir {j : Nat} {i : String} {l : List String} {x : String}
    (hj : j + 1 ≤ MAX_PEDIDOS_CACHE) (h : NosUltimos j i l) :
    NosUltimos (j + 1) i (inserirProcessado l x) := by
  unfold inserirProcessado
  by_cases hx : x ∈ l
  · simp only [hx, if_true]
    have h' : NosUltimos (j + 1) i l := h.mono (Nat.le_succ j)
    by_cases hlen : MAX_PEDIDOS_CACHE < l.length
    · rw [if_pos hlen]; exact h'.drop_trim hj hlen
    · rw [if_neg hlen]; exact h'
  · simp only [hx, if_false]
    have h' : NosUltimos (j + 1) i (l ++ [x]) := h.append x
    by_cases hlen : MAX_PEDIDOS_CACHE < (l ++ [x]).length
    · rw [if_pos hlen]; exact h'.drop_trim hj hlen
    · rw [if_neg hlen]; exact h'

theorem NosUltimos_inserir_self {l : List String} {x : String} (hx : x ∉ l) :
    NosUltimos 1 x (inserirProcessado l x) := by
  have hbase : NosUltimos 1 x (l ++ [x]) := by
    unfold NosUltimos
    have harith : (l ++ [x]).length - 1 = l.length := by simp
    rw [harith, List.drop_append_of_le_length (Nat.le_refl _)]
    simp
  unfold inserirProcessado
  simp only [hx, if_false]
  by_cases hlen : MAX_PEDIDOS_CACHE < (l ++ [x]).length
  · rw [if_pos hlen]
    exact hbase.drop_trim (by simp [MAX_PEDIDOS_CACHE]) hlen
  · rw [if_neg hlen]; exact hbase

theorem not_mem_inserirProcessado {l : List String} {i x : String}
    (hi : i ∉ l) (hne : i ≠ x) : i ∉ inserirProcessado l x := by
  unfold inserirProcessado
  by_cases hx : x ∈ l
  · simp only [hx, if_true]
    intro hmem
    split at hmem
    · exact hi (List.drop_subset _ _ hmem)
    · exact hi hmem
  · simp only [hx, if_false]
    intro hmem
    have hfull : i ∈ l ++ [x] := by
      split at hmem
      · exact List.drop_subset _ _ hmem
      · exact hmem
    rcases List.mem_append.mp hfull with h | h
    · exact hi h
    · exact hne (List.mem_singleton.mp h)

theorem processarLote_nao_redespacha (i : String) :
    ∀ (lote : List Pedido) (s : EstadoPoller) (j : Nat),
      NosUltimos j i s.pedidosProcessados →
      j + lote.length ≤ MAX_PEDIDOS_CACHE →
      i ∉ (processarLote s lote).2 ∧
      NosUltimos (j + lote.length) i (processarLote s lote).1.pedidosProcessados
  | [], s, j, h, _ => by
      simpa [processarLote] using h
  | p :: resto, s, j, h, hlen => by
      by_cases hp : p.id ∈ s.pedidosProcessados
      · have hrec := processarLote_nao_redespacha i resto
          ⟨p.created_at, s.pedidosProcessados⟩ j h (by simp at hlen ⊢; omega)
        refine ⟨?_, ?_⟩
        · simpa [processarLote, processarPedidoDoLote, hp] using hrec.1
        · have := hrec.2.mono
            (show j + resto.length ≤ j + (resto.length + 1) by omega)
          simpa [processarLote, processarPedidoDoLote, hp] using this
      · have hne : i ≠ p.id := fun he => hp (he ▸ h.mem)
        have hins : NosUltimos (j + 1) i (inserirProcessado s.pedidosProcessados p.id) :=
          h.inserir (by simp at hlen ⊢; omega)
        have hrec := processarLote_nao_redespacha i resto
          ⟨p.created_at, inserirProcessado s.pedidosProcessados p.id⟩ (j + 1) hins
          (by simp at hlen ⊢; omega)
        refine ⟨?_, ?_⟩
        · simp [processarLote, processarPedidoDoLote, hp]
          exact ⟨hne, hrec.1⟩
        · have := hrec.2.mono
            (show j + 1 + resto.length ≤ j + (resto.length + 1) by omega)
          simpa [processarLote, processarPedidoDoLote, hp] using this

theorem processarLote_despacha_uma_vez (i : String) :
    ∀ (lote : List Pedido) (s : EstadoPoller),
      i ∉ s.pedidosProcessados →
      (lote.map Pedido.id).count i = 1 →
      lote.length ≤ MAX_PEDIDOS_CACHE →
      (processarLote s lote).2.count i = 1 ∧
      NosUltimos lote.length i (processarLote s lote).1.pedidosProcessados
  | [], _, _, hc, _ => by simp at hc
  | p :: resto, s, hi, hc, hlen => by
      by_cases hpi : p.id = i
      · subst hpi
        have hc0 : (resto.map Pedido.id).count p.id = 0 := by
          simpa [List.count_cons] using hc
        have hi2 : p.id ∉ resto.map Pedido.id := List.count_eq_zero.mp hc0
        have hins : NosUltimos 1 p.id (inserirProcessado s.pedidosProcessados p.id) :=
          NosUltimos_inserir_self hi
        have hrec := processarLote_nao_redespacha p.id resto
          ⟨p.created_at, inserirProcessado s.pedidosProcessados p.id⟩ 1 hins
          (by simp at hlen ⊢; omega)
        refine ⟨?_, ?_⟩
        · have hz : (processarLote
              ⟨p.created_at, inserirProcessado s.pedidosProcessados p.id⟩ resto).2.count
              p.id = 0 := List.count_eq_zero.mpr hrec.1
          simp [processarLote, processarPedidoDoLote, hi, List.count_cons, hz]
        · have := hrec.2.mono
            (show 1 + resto.length ≤ resto.length + 1 by omega)
          simpa [processarLote, processarPedidoDoLote, hi] using this
      · have hc1 : (resto.map Pedido.id).count i = 1 := by
          simpa [List.count_cons, hpi] using hc
        by_cases hp : p.id ∈ s.pedidosProcessados
        · have hrec := processarLote_despacha_uma_vez i resto
            ⟨p.created_at, s.pedidosProcessados⟩ hi hc1 (by simp at hlen ⊢; omega)
          refine ⟨?_, ?_⟩
          · simpa [processarLote, processarPedidoDoLote, hp] using hrec.1
          · have := hrec.2.mono
              (show resto.length ≤ resto.length + 1 by omega)
            simpa [processarLote, processarPedidoDoLote, hp] using this
        · have hi' : i ∉ inserirProcessado s.pedidosProcessados p.id :=
            not_mem_inserirProcessado hi (fun he => hpi he.symm)
          have hrec := processarLote_despacha_uma_vez i resto
            ⟨p.created_at, inserirProcessado s.pedidosProcessados p.id⟩ hi' hc1
            (by simp at hlen ⊢; omega)
          refine ⟨?_, ?_⟩
          · have hne : (p.id == i) = false := by
              simpa using fun he => hpi he
            simp [processarLote, processarPedidoDoLote, hp, List.count_cons, hne,
              hrec.1]
          · have := hrec.2.mono
              (show resto.length ≤ resto.length + 1 by omega)
            simpa [processarLote, processarPedidoDoLote, hp] using this

/-- C1: if an order id (absent from the dedup set, dispatched exactly
once from the first tick's batch, per the fetch's batch limit of 10
orders) appears again in the next tick's batch, `processarNovoPedido`
is invoked exactly once for it overall — the second tick dispatches it
zero times; and in general an order whose id is already in the dedup
set is skipped: no dispatch, the set unchanged, and only the cursor
advanced to the order's `created_at`. -/
theorem claim_C1 (s0 : EstadoPoller) (lote1 lote2 : List Pedido) (i : String)
    (h1 : i ∉ s0.pedidosProcessados)
    (hc : (lote1.map Pedido.id).count i = 1)
    (hm : i ∈ lote2.map Pedido.id)
    (hl1 : lote1.length ≤ 10) (hl2 : lote2.length ≤ 10) :
    (processarLote s0 lote1).2.count i = 1 ∧
    (processarLote (processarLote s0 lote1).1 lote2).2.count i = 0 ∧
    (∀ (s : EstadoPoller) (p : Pedido), p.id ∈ s.pedidosProcessados →
       (processarPedidoDoLote s p).1.pedidosProcessados = s.pedidosProcessados ∧
       (processarPedidoDoLote s p).1.ultimoPedidoProcessado = p.created_at ∧
       (processarPedidoDoLote s p).2 = []) := by
  have hmax : lote1.length ≤ MAX_PEDIDOS_CACHE := by
    simp [MAX_PEDIDOS_CACHE]; omega
  have hfirst := processarLote_despacha_uma_vez i lote1 s0 h1 hc hmax
  have hsecond := processarLote_nao_redespacha i lote2 (processarLote s0 lote1).1
    lote1.length hfirst.2 (by simp [MAX_PEDIDOS_CACHE]; omega)
  refine ⟨hfirst.1, List.count_eq_zero.mpr hsecond.1, ?_⟩
  intro s p hp
  simp [processarPedidoDoLote, hp]

/-- Witness for C1: the same order arrives in two successive batches. -/
theorem claim_C1_witness :
    ("pedido-1" ∉ (⟨0, []⟩ : EstadoPoller).pedidosProcessados) ∧
    (([pedidoProntoExemplo].map Pedido.id).count "pedido-1" = 1) ∧
    ("pedido-1" ∈ [pedidoProntoExemplo].map Pedido.id) ∧
    (([pedidoProntoExemplo] : List Pedido).length ≤ 10) ∧
    ((processarLote ⟨0, []⟩ [pedidoProntoExemplo]).2.count "pedido-1" = 1 ∧
     (processarLote (processarLote ⟨0, []⟩ [pedidoProntoExemplo]).1
        [pedidoProntoExemplo]).2.count "pedido-1" = 0 ∧
     (∀ (s : EstadoPoller) (p : Pedido), p.id ∈ s.pedidosProcessados →
        (processarPedidoDoLote s p).1.pedidosProcessados = s.pedidosProcessados ∧
        (processarPedidoDoLote s p).1.ultimoPedidoProcessado = p.created_at ∧
        (processarPedidoDoLote s p).2 = [])) :=
  ⟨by decide, by decide, by decide, by decide,
   claim_C1 ⟨0, []⟩ [pedidoProntoExemplo] [pedidoProntoExemplo] "pedido-1"
     (by decide) (by decide) (by decide) (by decide) (by decide)⟩

/-! ## Lemmas about the PIX key selector -/

theorem foldl_min_le (a : Nat) (l : List Nat) : ∀ y ∈ a :: l, l.foldl min a ≤ y := by
  induction l generalizing a with
  | nil =>
      intro y hy
      simp at hy
      simp [hy]
  | cons b t ih =>
      intro y hy
      simp only [List.foldl_cons]
      have hmab : t.foldl min (min a b) ≤ min a b :=
        ih (min a b) (min a b) (List.mem_cons_self _ _)
      rcases List.mem_cons.mp hy with h1 | h2
      · rw [h1]
        exact le_trans hmab (min_le_left _ _)
      · rcases List.mem_cons.mp h2 with hb | ht
        · rw [hb]
          exact le_trans hmab (min_le_right _ _)
        · exact ih (min a b) y (List.mem_cons_of_mem _ ht)

theorem foldl_min_mem (a : Nat) (l : List Nat) : l.foldl min a ∈ a :: l := by
  induction l generalizing a with
  | nil => simp
  | cons b t ih =>
      simp only [List.foldl_cons]
      have hmem := ih (min a b)
      rcases List.mem_cons.mp hmem with h | h
      · rcases le_total a b with hab | hba
        · rw [h, min_eq_left hab]
          exact List.mem_cons_self _ _
        · rw [h, min_eq_right hba]
          exact List.mem_cons_of_mem _ (List.mem_cons_self _ _)
      · exact List.mem_cons_of_mem _ (List.mem_cons_of_mem _ h)

theorem getD_mem_de_grupo (g : List Nat) (hg : g ≠ []) (r : Nat) :
    g.getD (r % g.length) 0 ∈ g := by
  have hlt : r % g.length < g.length := Nat.mod_lt _ (List.length_pos.mpr hg)
  rw [List.getD_eq_getElem g 0 hlt]
  exact List.getElem_mem hlt

theorem indiceSorteadoPix_mem (uso : List (Nat × Nat)) (r : Nat) (c : Nat)
    (cs : List Nat) : indiceSorteadoPix uso r c cs ∈ c :: cs ∧
      (∀ y ∈ c :: cs, usoDoIndice uso (indiceSorteadoPix uso r c cs) ≤ usoDoIndice uso y) := by
  have hbalne : (c :: cs).filter (fun i => usoDoIndice uso i = menorUsoPix uso c cs) ≠ [] := by
    have hmem := foldl_min_mem (usoDoIndice uso c) (cs.map (usoDoIndice uso))
    have hex : ∃ z ∈ c :: cs, usoDoIndice uso z = menorUsoPix uso c cs := by
      rcases List.mem_cons.mp hmem with h | h
      · exact ⟨c, List.mem_cons_self _ _, h.symm⟩
      · rcases List.mem_map.mp h with ⟨z, hz, hze⟩
        exact ⟨z, List.mem_cons_of_mem _ hz, hze⟩
    rcases hex with ⟨z, hz, hze⟩
    intro hnil
    have hzin : z ∈ (c :: cs).filter
        (fun i => usoDoIndice uso i = menorUsoPix uso c cs) :=
      List.mem_filter.mpr ⟨hz, by simp [hze]⟩
    rw [hnil] at hzin
    simp at hzin
  have hgrupo : indiceSorteadoPix uso r c cs ∈ (c :: cs).filter
      (fun i => usoDoIndice uso i = menorUsoPix uso c cs) := by
    show (if ((c :: cs).filter fun i => usoDoIndice uso i = menorUsoPix uso c cs) ≠ []
          then (c :: cs).filter fun i => usoDoIndice uso i = menorUsoPix uso c cs
          else c :: cs).getD
        (r % (if ((c :: cs).filter fun i => usoDoIndice uso i = menorUsoPix uso c cs) ≠ []
              then (c :: cs).filter fun i => usoDoIndice uso i = menorUsoPix uso c cs
              else c :: cs).length) 0 ∈ _
    rw [if_pos hbalne]
    exact getD_mem_de_grupo _ hbalne r
  have hmemc : indiceSorteadoPix uso r c cs ∈ c :: cs := (List.mem_filter.mp hgrupo).1
  have hvalor : usoDoIndice uso (indiceSorteadoPix uso r c cs) = menorUsoPix uso c cs := by
    have := (List.mem_filter.mp hgrupo).2
    simpa using this
  refine ⟨hmemc, ?_⟩
  intro y hy
  rw [hvalor]
  rcases List.mem_cons.mp hy with h1 | h2
  · rw [h1]
    exact foldl_min_le _ _ _ (List.mem_cons_self _ _)
  · exact foldl_min_le (usoDoIndice uso c) (cs.map (usoDoIndice uso)) _
      (List.mem_cons_of_mem _ (List.mem_map_of_mem _ h2))

theorem indicesCandidatosPix_ne_nil (chaves : List ChavePix) (ue : Option (Nat × Nat))
    (agora : Nat) (h : chaves ≠ []) : indicesCandidatosPix chaves ue agora ≠ [] := by
  have hlen0 : chaves.length ≠ 0 := fun h0 => h (List.length_eq_zero.mp h0)
  have htodos : List.range chaves.length ≠ [] := by
    simpa [List.range_eq_nil] using hlen0
  unfold indicesCandidatosPix restaurarSeVazio
  split
  · exact htodos
  · assumption

theorem filtrarBloqueado_subset (chaves : List ChavePix) (ue : Option (Nat × Nat))
    (agora : Nat) : filtrarBloqueado chaves ue agora ⊆ List.range chaves.length := by
  cases ue with
  | none => exact fun x hx => hx
  | some par =>
      obtain ⟨ind, ts⟩ := par
      show (if 1 < chaves.length ∧ agora - ts < INTERVALO_BLOQUEIO_REPETICAO_MS then
              (List.range chaves.length).filter fun i => i ≠ ind
            else List.range chaves.length) ⊆ List.range chaves.length
      by_cases hcond : 1 < chaves.length ∧ agora - ts < INTERVALO_BLOQUEIO_REPETICAO_MS
      · rw [if_pos hcond]
        intro x hx
        exact List.mem_of_mem_filter hx
      · rw [if_neg hcond]
        exact fun x hx => hx

theorem indicesCandidatosPix_lt (chaves : List ChavePix) (ue : Option (Nat × Nat))
    (agora : Nat) : ∀ x ∈ indicesCandidatosPix chaves ue agora, x < chaves.length := by
  intro x hx
  have hrange : x ∈ List.range chaves.length := by
    unfold indicesCandidatosPix restaurarSeVazio at hx
    split at hx
    · exact hx
    · exact filtrarBloqueado_subset chaves ue agora hx
  exact List.mem_range.mp hrange

theorem limparHistoricoAntigo_length_le (agora : Nat)
    (hist : List (String × Nat × Nat)) :
    (limparHistoricoAntigo agora hist).length ≤ hist.length := by
  simp only [limparHistoricoAntigo]
  split
  · exact List.length_filter_le _ _
  · exact le_trans (List.length_filter_le _ _) (List.length_filter_le _ _)

theorem consulta_apos_definir (hist0 : List (String × Nat × Nat)) (nn : String)
    (idx T agora2 : Nat) (hT : T ≠ 0) (hret : agora2 - T ≤ RETENCAO_HISTORICO_MS)
    (hlen : (definirMapa hist0 nn (idx, T)).length ≤ LIMITE_HISTORICO) :
    buscarMapa (limparHistoricoAntigo agora2 (definirMapa hist0 nn (idx, T))) nn =
      some (idx, T) := by
  have hbusca := buscarMapa_definirMapa_self hist0 nn (idx, T)
  simp only [limparHistoricoAntigo]
  rw [if_pos (le_trans (List.length_filter_le _ _) hlen)]
  exact buscarMapa_filter _ _ _ _ hbusca (by simp [hT, hret])

theorem selecionar_eq_cons (chaves : List ChavePix) (r agora : Nat) (numero : String)
    (st : EstadoPix) (c : Nat) (cs : List Nat)
    (hcand : indicesCandidatosPix chaves (consultaUltimoEnvio agora numero st) agora =
      c :: cs) :
    selecionarChavePixInteligente chaves r agora numero st =
      (chaves.get? (indiceSorteadoPix st.usoPorIndice r c cs),
       ⟨if normalizarNumero numero ≠ "" then
          definirMapa (limparHistoricoAntigo agora st.ultimoEnvioPorNumero)
            (normalizarNumero numero) (indiceSorteadoPix st.usoPorIndice r c cs, agora)
        else limparHistoricoAntigo agora st.ultimoEnvioPorNumero,
        definirMapa st.usoPorIndice (indiceSorteadoPix st.usoPorIndice r c cs)
          (usoDoIndice st.usoPorIndice (indiceSorteadoPix st.usoPorIndice r c cs) + 1)⟩) := by
  simp only [selecionarChavePixInteligente, hcand]

theorem selecionar_estrutura (chaves : List ChavePix) (r agora : Nat) (numero : String)
    (st : EstadoPix) (hchaves : chaves ≠ []) :
    ∃ idx : Nat,
      idx < chaves.length ∧
      idx ∈ indicesCandidatosPix chaves (consultaUltimoEnvio agora numero st) agora ∧
      (∀ y ∈ indicesCandidatosPix chaves (consultaUltimoEnvio agora numero st) agora,
         usoDoIndice st.usoPorIndice idx ≤ usoDoIndice st.usoPorIndice y) ∧
      (selecionarChavePixInteligente chaves r agora numero st).1 = chaves.get? idx ∧
      (selecionarChavePixInteligente chaves r agora numero st).2.usoPorIndice =
        definirMapa st.usoPorIndice idx (usoDoIndice st.usoPorIndice idx + 1) ∧
      (normalizarNumero numero ≠ "" →
        (selecionarChavePixInteligente chaves r agora numero st).2.ultimoEnvioPorNumero =
          definirMapa (limparHistoricoAntigo agora st.ultimoEnvioPorNumero)
            (normalizarNumero numero) (idx, agora)) := by
  rcases hcand : indicesCandidatosPix chaves (consultaUltimoEnvio agora numero st) agora
    with _ | ⟨c, cs⟩
  · exact absurd hcand (indicesCandidatosPix_ne_nil chaves _ agora hchaves)
  · have hsel := selecionar_eq_cons chaves r agora numero st c cs hcand
    have hmem := indiceSorteadoPix_mem st.usoPorIndice r c cs
    refine ⟨indiceSorteadoPix st.usoPorIndice r c cs, ?_, ?_, ?_, ?_, ?_, ?_⟩
    · exact indicesCandidatosPix_lt chaves _ agora _ (hcand.symm ▸ hmem.1)
    · exact hmem.1
    · exact hmem.2
    · rw [hsel]
    · rw [hsel]
    · intro hn
      rw [hsel]
      simp [hn]

/-! ## C7 — anti-repetition of the PIX key selection -/

/-- C7: with the two configured keys, a requester selecting at time `T`
and again at `T + 1h` (inside the 6 h block window) never receives the
same key twice; at `T + 7h` the anti-repetition constraint no longer
applies (the candidate set is the full index set again); and for any
non-empty key list a selection always returns a key. -/
theorem claim_C7 (st0 : EstadoPix) (T : Nat) (numero : String) (r1 r2 : Nat)
    (k1 k2 : ChavePix) (st1 st2 : EstadoPix)
    (hT : T ≠ 0) (hn : normalizarNumero numero ≠ "")
    (hlen : st0.ultimoEnvioPorNumero.length + 1 ≤ LIMITE_HISTORICO)
    (h1 : selecionarChavePixInteligente CHAVES_PIX r1 T numero st0 = (some k1, st1))
    (h2 : selecionarChavePixInteligente CHAVES_PIX r2 (T + 3600000) numero st1 =
      (some k2, st2)) :
    k2 ≠ k1 ∧
    indicesCandidatosPix CHAVES_PIX (consultaUltimoEnvio (T + 25200000) numero st1)
      (T + 25200000) = List.range CHAVES_PIX.length ∧
    (∀ (chaves : List ChavePix) (r agora : Nat) (num : String) (st : EstadoPix),
       chaves ≠ [] → (selecionarChavePixInteligente chaves r agora num st).1.isSome) := by
  obtain ⟨idx1, hlt1, _hm1, _hmin1, hk1, _huso1, hhist1⟩ :=
    selecionar_estrutura CHAVES_PIX r1 T numero st0 (by decide)
  have hhist1' := hhist1 hn
  rw [h1] at hk1 hhist1'
  have hlen1 : st1.ultimoEnvioPorNumero.length ≤ LIMITE_HISTORICO := by
    rw [hhist1']
    exact le_trans (length_definirMapa_le _ _ _)
      (le_trans (Nat.succ_le_succ (limparHistoricoAntigo_length_le T _)) hlen)
  have hlendef : (definirMapa (limparHistoricoAntigo T st0.ultimoEnvioPorNumero)
      (normalizarNumero numero) (idx1, T)).length ≤ LIMITE_HISTORICO := by
    rw [← hhist1']
    exact hlen1
  have hcons1 : consultaUltimoEnvio (T + 3600000) numero st1 = some (idx1, T) := by
    simp only [consultaUltimoEnvio]
    rw [if_pos hn, hhist1']
    exact consulta_apos_definir _ _ _ _ _ hT
      (by simp only [RETENCAO_HISTORICO_MS]; omega) hlendef
  have hconsb : consultaUltimoEnvio (T + 25200000) numero st1 = some (idx1, T) := by
    simp only [consultaUltimoEnvio]
    rw [if_pos hn, hhist1']
    exact consulta_apos_definir _ _ _ _ _ hT
      (by simp only [RETENCAO_HISTORICO_MS]; omega) hlendef
  have hsub1 : T + 3600000 - T = 3600000 := by omega
  have hsubb : T + 25200000 - T = 25200000 := by omega
  have hidx01 : idx1 = 0 ∨ idx1 = 1 := by
    have h2 : idx1 < 2 := by simpa [CHAVES_PIX] using hlt1
    omega
  constructor
  · -- second selection avoids the first key
    have hcand2 : indicesCandidatosPix CHAVES_PIX
        (consultaUltimoEnvio (T + 3600000) numero st1) (T + 3600000) =
        (List.range CHAVES_PIX.length).filter fun i => i ≠ idx1 := by
      rw [hcons1]
      simp only [indicesCandidatosPix, filtrarBloqueado, restaurarSeVazio, hsub1]
      rcases hidx01 with h0 | h0 <;> subst h0 <;> decide
    obtain ⟨idx2, _hlt2, hm2, _hmin2, hk2, _huso2, _hhist2⟩ :=
      selecionar_estrutura CHAVES_PIX r2 (T + 3600000) numero st1 (by decide)
    rw [h2] at hk2
    rw [hcand2] at hm2
    rcases hidx01 with h0 | h0 <;> subst h0
    · have hm2' : idx2 < 2 ∧ ¬ idx2 = 0 := by simpa [CHAVES_PIX] using hm2
      have hidx2 : idx2 = 1 := by omega
      subst hidx2
      simp only [CHAVES_PIX] at hk1 hk2
      simp at hk1 hk2
      rw [hk1, hk2]
      decide
    · have hm2' : idx2 < 2 ∧ ¬ idx2 = 1 := by simpa [CHAVES_PIX] using hm2
      have hidx2 : idx2 = 0 := by omega
      subst hidx2
      simp only [CHAVES_PIX] at hk1 hk2
      simp at hk1 hk2
      rw [hk1, hk2]
      decide
  constructor
  · -- at T + 7h the block window has elapsed: full candidate set
    rw [hconsb]
    simp only [indicesCandidatosPix, filtrarBloqueado, restaurarSeVazio, hsubb]
    rw [if_neg (by decide :
      ¬ (1 < CHAVES_PIX.length ∧ 25200000 < INTERVALO_BLOQUEIO_REPETICAO_MS))]
    simp
  · -- a key is always returned
    intro chaves r agora num st hch
    obtain ⟨idx, hlt, _, _, hk, _, _⟩ := selecionar_estrutura chaves r agora num st hch
    rw [hk]
    simp [List.get?_eq_getElem?, hlt]

/-- Witness for C7 from the module-load state: the first selection at
time 1000 yields the first key; one hour later the same requester gets
the other key. -/
theorem claim_C7_witness :
    ((1000 : Nat) ≠ 0) ∧
    (normalizarNumero "5586999" ≠ "") ∧
    ((estadoPixInicial CHAVES_PIX).ultimoEnvioPorNumero.length + 1 ≤ LIMITE_HISTORICO) ∧
    (selecionarChavePixInteligente CHAVES_PIX 0 1000 "5586999"
       (estadoPixInicial CHAVES_PIX) =
      (some ⟨"Aleatória", "74849085-bf79-49ce-9897-95ccee2a3004", "Rei do Churrasco"⟩,
       ⟨[("5586999", 0, 1000)], [(0, 1), (1, 0)]⟩)) ∧
    (selecionarChavePixInteligente CHAVES_PIX 0 (1000 + 3600000) "5586999"
       ⟨[("5586999", 0, 1000)], [(0, 1), (1, 0)]⟩ =
      (some ⟨"E-mail", "Marcos.f.alves1984@gmail.com", "Rei do Churrasco"⟩,
       ⟨[("5586999", 1, 1000 + 3600000)], [(0, 1), (1, 1)]⟩)) ∧
    ((⟨"E-mail", "Marcos.f.alves1984@gmail.com", "Rei do Churrasco"⟩ : ChavePix) ≠
       ⟨"Aleatória", "74849085-bf79-49ce-9897-95ccee2a3004", "Rei do Churrasco"⟩ ∧
     indicesCandidatosPix CHAVES_PIX
       (consultaUltimoEnvio (1000 + 25200000) "5586999"
         ⟨[("5586999", 0, 1000)], [(0, 1), (1, 0)]⟩)
       (1000 + 25200000) = List.range CHAVES_PIX.length ∧
     (∀ (chaves : List ChavePix) (r agora : Nat) (num : String) (st : EstadoPix),
        chaves ≠ [] → (selecionarChavePixInteligente chaves r agora num st).1.isSome)) := by
  have hh1 : selecionarChavePixInteligente CHAVES_PIX 0 1000 "5586999"
      (estadoPixInicial CHAVES_PIX) =
      (some ⟨"Aleatória", "74849085-bf79-49ce-9897-95ccee2a3004", "Rei do Churrasco"⟩,
       ⟨[("5586999", 0, 1000)], [(0, 1), (1, 0)]⟩) := by decide
  have hh2 : selecionarChavePixInteligente CHAVES_PIX 0 (1000 + 3600000) "5586999"
      ⟨[("5586999", 0, 1000)], [(0, 1), (1, 0)]⟩ =
      (some ⟨"E-mail", "Marcos.f.alves1984@gmail.com", "Rei do Churrasco"⟩,
       ⟨[("5586999", 1, 1000 + 3600000)], [(0, 1), (1, 1)]⟩) := by decide
  exact ⟨by decide, by decide, by decide, hh1, hh2,
    claim_C7 (estadoPixInicial CHAVES_PIX) 1000 "5586999" 0 0 _ _ _ _
      (by decide) (by decide) (by decide) hh1 hh2⟩

/-! ## C8 — rotation fairness of the PIX key selection -/

theorem buscarMapa_definirMapa_other {κ β : Type} [DecidableEq κ]
    (l : List (κ × β)) (k j : κ) (v : β) (h : j ≠ k) :
    buscarMapa (definirMapa l k v) j = buscarMapa l j := by
  induction l with
  | nil => simp [definirMapa, buscarMapa, Ne.symm h]
  | cons e resto ih =>
      obtain ⟨k', v'⟩ := e
      by_cases hk : k' = k
      · subst hk
        simp [definirMapa, buscarMapa, Ne.symm h]
      · by_cases hj : k' = j
        · subst hj
          simp [definirMapa, buscarMapa, hk]
        · simp [definirMapa, buscarMapa, hk, hj, ih]

theorem usoDoIndice_definirMapa (uso : List (Nat × Nat)) (k v j : Nat) :
    usoDoIndice (definirMapa uso k v) j = if j = k then v else usoDoIndice uso j := by
  by_cases h : j = k
  · subst h
    simp [usoDoIndice, buscarMapa_definirMapa_self]
  · simp [usoDoIndice, h, buscarMapa_definirMapa_other uso k j v h]

theorem candidatos_sem_historico (agora : Nat) :
    indicesCandidatosPix CHAVES_PIX none agora = [0, 1] := rfl

theorem selecionar_passo_justo (numero : String) (agora r : Nat) (st : EstadoPix)
    (a b : Nat) (huso : st.usoPorIndice = [(0, a), (1, b)])
    (hfresh : consultaUltimoEnvio agora numero st = none)
    (h1 : a ≤ b + 1) (h2 : b ≤ a + 1) :
    ∃ a' b',
      (selecionarChavePixInteligente CHAVES_PIX r agora numero st).2.usoPorIndice =
        [(0, a'), (1, b')] ∧ a' ≤ b' + 1 ∧ b' ≤ a' + 1 := by
  obtain ⟨idx, hlt, hmemc, hmin, _hk, husel, _hhist⟩ :=
    selecionar_estrutura CHAVES_PIX r agora numero st (by decide)
  rw [hfresh, candidatos_sem_historico] at hmemc hmin
  have huso0 : usoDoIndice st.usoPorIndice 0 = a := by
    simp [usoDoIndice, huso, buscarMapa]
  have huso1 : usoDoIndice st.usoPorIndice 1 = b := by
    simp [usoDoIndice, huso, buscarMapa]
  have hidx01 : idx = 0 ∨ idx = 1 := by
    simpa using hmemc
  rcases hidx01 with h0 | h0 <;> subst h0
  · have hab : a ≤ b := by
      have := hmin 1 (by decide)
      rwa [huso0, huso1] at this
    refine ⟨a + 1, b, ?_, by omega, by omega⟩
    rw [husel, huso]
    simp [definirMapa, usoDoIndice, buscarMapa]
  · have hba : b ≤ a := by
      have := hmin 0 (by decide)
      rwa [huso0, huso1] at this
    refine ⟨a, b + 1, ?_, by omega, by omega⟩
    rw [husel, huso]
    simp [definirMapa, usoDoIndice, buscarMapa]

theorem selecionarSeq_equilibrado :
    ∀ (seq : List (String × Nat × Nat)) (st : EstadoPix) (a b : Nat),
      st.usoPorIndice = [(0, a), (1, b)] → a ≤ b + 1 → b ≤ a + 1 →
      seqRemetentesFrescos st seq = true →
      ∃ a' b', (selecionarSeqPix st seq).usoPorIndice = [(0, a'), (1, b')] ∧
        a' ≤ b' + 1 ∧ b' ≤ a' + 1
  | [], _, a, b, huso, h1, h2, _ => ⟨a, b, huso, h1, h2⟩
  | (numero, agora, r) :: resto, st, a, b, huso, h1, h2, hf => by
      have hf' := hf
      simp only [seqRemetentesFrescos, Bool.and_eq_true, decide_eq_true_eq] at hf'
      obtain ⟨hfresh, hrest⟩ := hf'
      obtain ⟨a1, b1, huso1, h11, h21⟩ :=
        selecionar_passo_justo numero agora r st a b huso hfresh h1 h2
      simp only [selecionarSeqPix]
      exact selecionarSeq_equilibrado resto _ a1 b1 huso1 h11 h21 hrest

/-- C8: one hundred sequential selections with two keys and no recency
conflict (each requester fresh in the purged history at its selection
time) leave the two `timesSelected` counters within 1 of each other —
each selection picks an index of minimal current usage and increments
it by exactly one. -/
theorem claim_C8 (seq : List (String × Nat × Nat))
    (hfres : seqRemetentesFrescos (estadoPixInicial CHAVES_PIX) seq = true)
    (hlen : seq.length = 100) :
    Nat.dist
      (usoDoIndice (selecionarSeqPix (estadoPixInicial CHAVES_PIX) seq).usoPorIndice 0)
      (usoDoIndice (selecionarSeqPix (estadoPixInicial CHAVES_PIX) seq).usoPorIndice 1)
      ≤ 1 := by
  obtain ⟨a', b', huso, h1, h2⟩ :=
    selecionarSeq_equilibrado seq (estadoPixInicial CHAVES_PIX) 0 0 rfl
      (by omega) (by omega) hfres
  rw [huso]
  have e0 : usoDoIndice [(0, a'), (1, b')] 0 = a' := by
    simp [usoDoIndice, buscarMapa]
  have e1 : usoDoIndice [(0, a'), (1, b')] 1 = b' := by
    simp [usoDoIndice, buscarMapa]
  rw [e0, e1]
  simp [Nat.dist]
  omega

set_option maxRecDepth 20000 in
/-- Witness for C8: one hundred distinct requesters selecting in
sequence at time 1000. -/
theorem claim_C8_witness :
    (seqRemetentesFrescos (estadoPixInicial CHAVES_PIX)
       ((List.range 100).map fun k => (toString (10000 + k), 1000, 0)) = true) ∧
    (((List.range 100).map fun k =>
        ((toString (10000 + k) : String), (1000 : Nat), (0 : Nat))).length = 100) ∧
    Nat.dist
      (usoDoIndice (selecionarSeqPix (estadoPixInicial CHAVES_PIX)
        ((List.range 100).map fun k => (toString (10000 + k), 1000, 0))).usoPorIndice 0)
      (usoDoIndice (selecionarSeqPix (estadoPixInicial CHAVES_PIX)
        ((List.range 100).map fun k => (toString (10000 + k), 1000, 0))).usoPorIndice 1)
      ≤ 1 := by
  have hfres : seqRemetentesFrescos (estadoPixInicial CHAVES_PIX)
      ((List.range 100).map fun k => (toString (10000 + k), 1000, 0)) = true := by decide
  exact ⟨hfres, by decide,
    claim_C8 ((List.range 100).map fun k => (toString (10000 + k), 1000, 0)) hfres
      (by decide)⟩

end ReiDoChurrasco
